import Mathlib

/-!
Shallow embedding of the geospatial anchor component
`UCesiumCustomGlobeAnchorComponent` from
`Source/CesiumRuntime/Private/CesiumCustomGlobeAnchorComponent.cpp`.

Modelling decisions:
* glm double vectors/matrices become exact rational vectors (`Vec3`, `Vec4`)
  and column-major 4x4 matrices (`Mat4`, `m.c3` is the translation column
  `m[3]` of glm).
* The mutable component state (`TilesetTag`, the cartographic/cartesian
  mirror properties, `_worldToECEF`, `_worldToECEFIsValid`, and the owner
  root scene component transform written by `SetWorldTransform`) is an
  `AnchorState` record, threaded explicitly.
* External collaborators (the resolved `ACesiumGeoreference` with its
  `GeoTransforms` conversions, the validity of the owner actor and its root
  component, the world, the world origin, and the resolved tileset
  transform) are an `Env` record.  `Env.georef = none` models
  `ResolveGeoreference` returning null / `ResolvedGeoreference` being null.
* `UE_LOG` diagnostics become `LogMsg` values prepended to `AnchorState.log`
  (most recent first).
* A C++ null-pointer dereference (calling through a null
  `ACesiumGeoreference*`) is undefined behaviour; operations that can reach
  one return `Option AnchorState`, with `none` marking the dereference.
-/

/-- Exact-rational stand-in for `glm::dvec3` / `FVector`. -/
structure Vec3 where
  x : ℚ
  y : ℚ
  z : ℚ
deriving DecidableEq

/-- Exact-rational stand-in for `glm::dvec4`. -/
structure Vec4 where
  x : ℚ
  y : ℚ
  z : ℚ
  w : ℚ
deriving DecidableEq

/-- Column-major 4x4 matrix, mirroring `glm::dmat4`; `c3` is `m[3]`, the
translation column of an affine transform. -/
structure Mat4 where
  c0 : Vec4
  c1 : Vec4
  c2 : Vec4
  c3 : Vec4
deriving DecidableEq

def Vec4.smul (a : ℚ) (v : Vec4) : Vec4 :=
  ⟨a * v.x, a * v.y, a * v.z, a * v.w⟩

def Vec4.add (u v : Vec4) : Vec4 :=
  ⟨u.x + v.x, u.y + v.y, u.z + v.z, u.w + v.w⟩

/-- Matrix-vector product of a column-major matrix, as in glm:
`A * v = v.x * A[0] + v.y * A[1] + v.z * A[2] + v.w * A[3]`. -/
def Mat4.mulVec (A : Mat4) (v : Vec4) : Vec4 :=
  (Vec4.smul v.x A.c0).add ((Vec4.smul v.y A.c1).add
    ((Vec4.smul v.z A.c2).add (Vec4.smul v.w A.c3)))

/-- Matrix product, column by column, as in glm. -/
def Mat4.mul (A B : Mat4) : Mat4 :=
  ⟨A.mulVec B.c0, A.mulVec B.c1, A.mulVec B.c2, A.mulVec B.c3⟩

/-- Identity matrix, `glm::dmat4(1.0)`. -/
def Mat4.idMat : Mat4 :=
  ⟨⟨1, 0, 0, 0⟩, ⟨0, 1, 0, 0⟩, ⟨0, 0, 1, 0⟩, ⟨0, 0, 0, 1⟩⟩

/-- The diagnostics the component emits via `UE_LOG`, one constructor per
distinct message of `CesiumCustomGlobeAnchorComponent.cpp`. -/
inductive LogMsg where
  /-- "globe position is invalid because the component is not yet
  registered" (from `GetECEF` and `GetLongitudeLatitudeHeight`). -/
  | notRegisteredWarning : LogMsg
  /-- "cannot move to a globe position because the component is not yet
  registered" (from `MoveToLongitudeLatitudeHeight`). -/
  | cannotMoveError : LogMsg
  /-- "is not spawned in world" (from `ApplyWorldOffset`). -/
  | notSpawnedInWorld : LogMsg
  /-- "cannot update globe transform from actor transform because there is
  no valid Georeference" (from `_updateGlobeTransformFromActorTransform`). -/
  | noGeoreference : LogMsg
  /-- "does not have a valid owner" / "does not have a valid root actor". -/
  | noValidOwner : LogMsg
  /-- "does not have a valid root component". -/
  | noValidRootComponent : LogMsg
  /-- "cannot update Actor transform from Globe transform because the Globe
  transform is not known". -/
  | globeTransformNotKnown : LogMsg
deriving DecidableEq

/-- Mutable state of one `UCesiumCustomGlobeAnchorComponent`, together with
the owner root component transform that `SetWorldTransform` writes.
`worldToECEF` is the `_worldToECEF` matrix (backed by `_worldToECEF_Array`),
`worldToECEFIsValid` is `_worldToECEFIsValid`. -/
structure AnchorState where
  TilesetTag : String
  Longitude : ℚ
  Latitude : ℚ
  Height : ℚ
  ECEF_X : ℚ
  ECEF_Y : ℚ
  ECEF_Z : ℚ
  worldToECEF : Mat4
  worldToECEFIsValid : Bool
  actorTransform : Mat4
  log : List LogMsg
deriving DecidableEq

/-- The resolved georeference collaborator: the two `GeoTransforms`
conversion matrices and the ECEF/LLH conversion functions it provides.
Their implementations live outside this repository. -/
structure Georef where
  absoluteUnrealToEcef : Mat4
  ecefToAbsoluteUnreal : Mat4
  llhToEcef : Vec3 → Vec3
  ecefToLlh : Vec3 → Vec3

/-- External collaborators of the component: `georef` is what
`ResolveGeoreference` / `ResolvedGeoreference` yields (`none` = null),
`hasOwner`/`hasOwnerRoot`/`hasWorld` model the `IsValid` checks on the owner
actor, its root component, and the world, `worldOrigin` models
`CesiumActors::getWorldOrigin4D`, and `tilesetTransform` is the resolved
tileset root transform (`none` = `ResolvedTileset` invalid). -/
structure Env where
  georef : Option Georef
  hasOwner : Bool
  hasOwnerRoot : Bool
  hasWorld : Bool
  worldOrigin : Vec3
  tilesetTransform : Option Mat4

/-- `GetECEF` (CesiumCustomGlobeAnchorComponent.cpp lines 83-95): when the
globe transform is not valid, warn and return the zero vector; otherwise
return the translation column of `_worldToECEF`.  The returned list holds
the diagnostics the call emits. -/
def GetECEF (s : AnchorState) : Vec3 × List LogMsg :=
  if !s.worldToECEFIsValid then
    (⟨0, 0, 0⟩, [LogMsg.notRegisteredWarning])
  else
    (⟨s.worldToECEF.c3.x, s.worldToECEF.c3.y, s.worldToECEF.c3.z⟩, [])

/-- `GetLongitudeLatitudeHeight` (lines 215-228): when the globe transform
is not valid or no georeference is resolved, warn and return the zero
vector; otherwise convert `GetECEF` through the georeference. -/
def GetLongitudeLatitudeHeight (env : Env) (s : AnchorState) :
    Vec3 × List LogMsg :=
  match env.georef with
  | none => (⟨0, 0, 0⟩, [LogMsg.notRegisteredWarning])
  | some g =>
    if !s.worldToECEFIsValid then
      (⟨0, 0, 0⟩, [LogMsg.notRegisteredWarning])
    else
      (g.ecefToLlh (GetECEF s).1, [])

/-- `_updateCartesianProperties` (lines 536-544): copy the translation
column of `_worldToECEF` into the `ECEF_X/Y/Z` mirror properties, but only
when the globe transform is valid. -/
def updateCartesianProperties (s : AnchorState) : AnchorState :=
  if !s.worldToECEFIsValid then s
  else
    { s with
      ECEF_X := s.worldToECEF.c3.x
      ECEF_Y := s.worldToECEF.c3.y
      ECEF_Z := s.worldToECEF.c3.z }

/-- `_updateCartographicProperties` (lines 579-601): when the globe
transform is valid, convert its translation column to LLH through the
georeference and store it in the `Longitude`/`Latitude`/`Height` mirror
properties.  When `ResolveGeoreference` yields null the code merely logs a
warning and then calls through the null pointer anyway
(`pGeoreference->GetGeoTransforms()`), which is the undefined behaviour
modelled by `none`. -/
def updateCartographicProperties (env : Env) (s : AnchorState) :
    Option AnchorState :=
  if !s.worldToECEFIsValid then some s
  else
    match env.georef with
    | none => none
    | some g =>
      let llh := g.ecefToLlh
        ⟨s.worldToECEF.c3.x, s.worldToECEF.c3.y, s.worldToECEF.c3.z⟩
      some { s with Longitude := llh.x, Latitude := llh.y, Height := llh.z }

/-- `_updateGlobeTransformFromActorTransform` (lines 387-432): despite its
name it never reads the actor transform; it builds an identity matrix whose
translation is the world origin, multiplies it by the georeference's
absolute-Unreal-to-ECEF matrix, stores the result as `_worldToECEF`, marks
the globe transform valid, and refreshes only the cartesian mirror (the
call to `_updateCartographicProperties` is commented out in the source).
With no georeference or no valid owner it logs and clears the validity
flag. -/
def updateGlobeTransformFromActorTransform (env : Env) (s : AnchorState) :
    AnchorState :=
  match env.georef with
  | none =>
    { s with
      worldToECEFIsValid := false
      log := LogMsg.noGeoreference :: s.log }
  | some g =>
    if !env.hasOwner then
      { s with
        worldToECEFIsValid := false
        log := LogMsg.noValidOwner :: s.log }
    else
      let worldTransform : Mat4 :=
        { Mat4.idMat with
          c3 := ⟨env.worldOrigin.x, env.worldOrigin.y, env.worldOrigin.z, 1⟩ }
      updateCartesianProperties
        { s with
          worldToECEF := Mat4.mul g.absoluteUnrealToEcef worldTransform
          worldToECEFIsValid := true }

/-- `_updateActorTransformFromGlobeTransform` (lines 434-501): guard on the
owner actor, its root component, and the validity flag (each failure logs
and returns a default without touching the globe transform); then compute
`actorToUnreal = tilesetTransform * ecefToAbsoluteUnreal * _worldToECEF`
(the origin-relative correction at lines 479-481 is commented out in the
source) and push it to the owner root via `SetWorldTransform`.  The second
component of the result is the returned `FTransform`.  When the validity
flag is set and `ResolveGeoreference` yields null, the code dereferences
the null georeference (`ResolveGeoreference()->GetGeoTransforms()`),
modelled as `none`. -/
def updateActorTransformFromGlobeTransform (env : Env) (s : AnchorState) :
    Option (AnchorState × Mat4) :=
  if !env.hasOwner then
    some ({ s with log := LogMsg.noValidOwner :: s.log }, Mat4.idMat)
  else if !env.hasOwnerRoot then
    some ({ s with log := LogMsg.noValidRootComponent :: s.log }, Mat4.idMat)
  else if !s.worldToECEFIsValid then
    some ({ s with log := LogMsg.globeTransformNotKnown :: s.log },
      s.actorTransform)
  else
    match env.georef with
    | none => none
    | some g =>
      let tilesetTransform := env.tilesetTransform.getD Mat4.idMat
      let actorToUnreal :=
        Mat4.mul tilesetTransform
          (Mat4.mul g.ecefToAbsoluteUnreal s.worldToECEF)
      some ({ s with actorTransform := actorToUnreal }, actorToUnreal)

/-- `_setGlobeTransform` (lines 503-514): store the new `_worldToECEF` and
update the actor transform from it.  Does not touch the validity flag or
the mirror properties. -/
def setGlobeTransform (env : Env) (s : AnchorState) (newTransform : Mat4) :
    Option AnchorState :=
  (updateActorTransformFromGlobeTransform env
    { s with worldToECEF := newTransform }).map (fun r => r.1)

/-- `_applyCartesianProperties` (lines 516-534): if the globe transform is
not yet valid, derive it from the actor transform while preserving the
`ECEF_X/Y/Z` properties; then overwrite the translation column of the globe
transform with those properties, push it through `_setGlobeTransform`, and
refresh the cartographic mirror. -/
def applyCartesianProperties (env : Env) (s : AnchorState) :
    Option AnchorState :=
  let s1 :=
    if !s.worldToECEFIsValid then
      { updateGlobeTransformFromActorTransform env s with
        ECEF_X := s.ECEF_X
        ECEF_Y := s.ECEF_Y
        ECEF_Z := s.ECEF_Z }
    else s
  let transform : Mat4 :=
    { s1.worldToECEF with c3 := ⟨s1.ECEF_X, s1.ECEF_Y, s1.ECEF_Z, 1⟩ }
  (setGlobeTransform env s1 transform).bind
    (fun s2 => updateCartographicProperties env s2)

/-- `MoveToECEF` (lines 97-106): store the target in the `ECEF_X/Y/Z`
properties and apply them. -/
def MoveToECEF (env : Env) (s : AnchorState) (newPosition : Vec3) :
    Option AnchorState :=
  applyCartesianProperties env
    { s with
      ECEF_X := newPosition.x
      ECEF_Y := newPosition.y
      ECEF_Z := newPosition.z }

/-- `MoveToLongitudeLatitudeHeight` (lines 230-251): when the globe
transform is not valid or no georeference is resolved, log an error and
return without changing anything else; otherwise convert the target LLH to
ECEF through the georeference and delegate to `MoveToECEF`. -/
def MoveToLongitudeLatitudeHeight (env : Env) (s : AnchorState)
    (target : Vec3) : Option AnchorState :=
  match env.georef with
  | none => some { s with log := LogMsg.cannotMoveError :: s.log }
  | some g =>
    if !s.worldToECEFIsValid then
      some { s with log := LogMsg.cannotMoveError :: s.log }
    else
      MoveToECEF env s (g.llhToEcef target)

/-- `ApplyWorldOffset` (lines 253-283): after the base-class call, guard on
the world being valid, then recompute the actor transform from the globe
transform.  Neither `InOffset` nor `bWorldShift` is used beyond the
base-class call, and no origin value is passed on. -/
def ApplyWorldOffset (env : Env) (s : AnchorState) (InOffset : Vec3)
    (bWorldShift : Bool) : Option AnchorState :=
  if !env.hasWorld then
    some { s with log := LogMsg.notSpawnedInWorld :: s.log }
  else
    (updateActorTransformFromGlobeTransform env s).map (fun r => r.1)

/-- `_onGlobeTransformChanged` (lines 371-379), the handler `_registerTileset`
subscribes to the `TransformUpdated` event of the resolved tileset's root
component: when the globe transform is valid, push the actor transform from
it; otherwise do nothing. -/
def onGlobeTransformChanged (env : Env) (s : AnchorState) :
    Option AnchorState :=
  if s.worldToECEFIsValid then
    (updateActorTransformFromGlobeTransform env s).map (fun r => r.1)
  else
    some s

/-- `_onGeoreferenceChanged` (lines 381-385): when the globe transform is
valid, push the actor transform from it; otherwise do nothing. -/
def onGeoreferenceChanged (env : Env) (s : AnchorState) :
    Option AnchorState :=
  if s.worldToECEFIsValid then
    (updateActorTransformFromGlobeTransform env s).map (fun r => r.1)
  else
    some s

/-- `_applyCartographicProperties` (lines 546-577): if the globe transform
is not yet valid, derive it from the actor transform while preserving the
`Longitude`/`Latitude`/`Height` properties; then convert those properties
to ECEF through `ResolveGeoreference`, overwrite the translation column,
push it through `_setGlobeTransform`, and refresh the cartesian mirror.
When `ResolveGeoreference` yields null the code logs a warning and then
dereferences the null pointer (`pGeoreference->GetGeoTransforms()`),
modelled as `none`. -/
def applyCartographicProperties (env : Env) (s : AnchorState) :
    Option AnchorState :=
  let s1 :=
    if !s.worldToECEFIsValid then
      { updateGlobeTransformFromActorTransform env s with
        Longitude := s.Longitude
        Latitude := s.Latitude
        Height := s.Height }
    else s
  match env.georef with
  | none => none
  | some g =>
    let newEcef := g.llhToEcef ⟨s1.Longitude, s1.Latitude, s1.Height⟩
    let transform : Mat4 :=
      { s1.worldToECEF with c3 := ⟨newEcef.x, newEcef.y, newEcef.z, 1⟩ }
    (setGlobeTransform env s1 transform).map updateCartesianProperties

/-- `SetTilesetTag` (lines 71-81): the guard returns immediately when the
new tag is different from the stored one; only when they are equal is the
(identical) value assigned and, if the `Tileset` property is not valid,
tileset re-resolution triggered.  The boolean result records whether
re-resolution (`InvalidateResolvedTileset` + `ResolveTileset`) was
triggered; `tilesetPropertyIsValid` models `IsValid(this->Tileset)`. -/
def SetTilesetTag (s : AnchorState) (NewTilesetTag : String)
    (tilesetPropertyIsValid : Bool) : AnchorState × Bool :=
  if NewTilesetTag ≠ s.TilesetTag then
    (s, false)
  else
    let s1 := { s with TilesetTag := NewTilesetTag }
    if !tilesetPropertyIsValid then (s1, true) else (s1, false)

/-- Serialized form of the anchor state relevant to versioned loading: the
archive's Cesium custom version and the stored `_worldToECEFIsValid`
property (`none` for archives written before the flag existed, whose
property data does not contain it). -/
structure AnchorArchive where
  cesiumVersion : Int
  storedValidFlag : Option Bool
deriving DecidableEq

/-- Saving under `Serialize` (lines 285-297): `Super::Serialize` writes the
`_worldToECEFIsValid` UPROPERTY into the archive at the current version. -/
def serializeAnchor (currentVersion : Int) (s : AnchorState) :
    AnchorArchive :=
  ⟨currentVersion, some s.worldToECEFIsValid⟩

/-- Loading under `Serialize` (lines 285-297): `Super::Serialize` restores
the stored `_worldToECEFIsValid` property when the archive has it (leaving
the in-memory value otherwise), and then, when the archive version predates
`FCesiumCustomVersion::GeoreferenceRefactoring` (passed here as
`georeferenceRefactoringVersion`), the flag is forced to `true`. -/
def deserializeValidFlag (georeferenceRefactoringVersion : Int)
    (ar : AnchorArchive) (inMemoryFlag : Bool) : Bool :=
  let loaded := ar.storedValidFlag.getD inMemoryFlag
  if ar.cesiumVersion < georeferenceRefactoringVersion then true else loaded

/-- Concrete georeference used by witnesses: identity conversion matrices
and identity ECEF/LLH conversions (any `Georef` instance is a legitimate
environment; the theorems quantify over all of them). -/
def g0 : Georef where
  absoluteUnrealToEcef := Mat4.idMat
  ecefToAbsoluteUnreal := Mat4.idMat
  llhToEcef := fun v => ⟨v.x, v.y, v.z⟩
  ecefToLlh := fun v => ⟨v.x, v.y, v.z⟩

/-- Fully-functional environment for witnesses: georeference resolved,
owner, root component, and world all valid, world origin zero, no resolved
tileset. -/
def mEnv : Env where
  georef := some g0
  hasOwner := true
  hasOwnerRoot := true
  hasWorld := true
  worldOrigin := ⟨0, 0, 0⟩
  tilesetTransform := none

/-- Environment in which no georeference can be resolved. -/
def envNoGeoref : Env :=
  { mEnv with georef := none }

/-- Freshly-created anchor state (`OnComponentCreated` clears the validity
flag); the stale mirror properties hold arbitrary nonzero values. -/
def st0 : AnchorState where
  TilesetTag := "tag"
  Longitude := 5
  Latitude := 6
  Height := 7
  ECEF_X := 0
  ECEF_Y := 0
  ECEF_Z := 0
  worldToECEF := Mat4.idMat
  worldToECEFIsValid := false
  actorTransform := Mat4.idMat
  log := []

/-- Globe transform at translation (10, 20, 30) used by witness states. -/
def wMat : Mat4 :=
  { Mat4.idMat with c3 := ⟨10, 20, 30, 1⟩ }

/-- A valid anchor at globe position (10, 20, 30). -/
def stValid : AnchorState :=
  { st0 with worldToECEFIsValid := true, worldToECEF := wMat }

/-- The actor transform that `_updateActorTransformFromGlobeTransform`
computes and pushes on its success path: tileset transform times
ECEF-to-absolute-Unreal times the globe transform. -/
def pushedActorTransform (env : Env) (g : Georef) (s : AnchorState) : Mat4 :=
  Mat4.mul (env.tilesetTransform.getD Mat4.idMat)
    (Mat4.mul g.ecefToAbsoluteUnreal s.worldToECEF)

/-- Result of `_applyCartesianProperties` on the fresh state in the
fully-functional environment, used by the C7 witness. -/
def cartRes : AnchorState :=
  (applyCartesianProperties mEnv st0).getD st0

/-- Claim C6: for every anchor whose validity flag is false, `GetECEF` and
`GetLongitudeLatitudeHeight` return the zero vector and emit the
not-yet-registered diagnostic, and being const queries they modify no
state. -/
theorem C6_invalid_queries_return_zero (env : Env) (s : AnchorState)
    (hv : s.worldToECEFIsValid = false) :
    GetECEF s = (⟨0, 0, 0⟩, [LogMsg.notRegisteredWarning]) ∧
    GetLongitudeLatitudeHeight env s
      = (⟨0, 0, 0⟩, [LogMsg.notRegisteredWarning]) := by
  cases hge : env.georef <;>
    simp [GetECEF, GetLongitudeLatitudeHeight, hv, hge]

/-- Witness for C6 at the freshly-created (invalid) state. -/
theorem C6_invalid_queries_return_zero_witness :
    GetECEF st0 = (⟨0, 0, 0⟩, [LogMsg.notRegisteredWarning]) ∧
    GetLongitudeLatitudeHeight mEnv st0
      = (⟨0, 0, 0⟩, [LogMsg.notRegisteredWarning]) :=
  C6_invalid_queries_return_zero mEnv st0 rfl

/-- Claim C10: every call to `SetTilesetTag` leaves the stored `TilesetTag`
unchanged (the guard returns when the new tag differs, and otherwise
assigns the identical value), and a genuinely new tag triggers no tileset
re-resolution. -/
theorem C10_setTilesetTag_never_changes_tag (s : AnchorState) (t : String)
    (tilesetPropertyIsValid : Bool) :
    (SetTilesetTag s t tilesetPropertyIsValid).1.TilesetTag = s.TilesetTag ∧
    (t ≠ s.TilesetTag →
      SetTilesetTag s t tilesetPropertyIsValid = (s, false)) := by
  by_cases h : t = s.TilesetTag
  · subst h
    cases tilesetPropertyIsValid <;> simp [SetTilesetTag]
  · simp [SetTilesetTag, h]

/-- Witness for C10: a genuinely new tag leaves the state untouched and
triggers no re-resolution. -/
theorem C10_setTilesetTag_never_changes_tag_witness :
    (SetTilesetTag st0 "other" true).1.TilesetTag = st0.TilesetTag ∧
    SetTilesetTag st0 "other" true = (st0, false) :=
  ⟨(C10_setTilesetTag_never_changes_tag st0 "other" true).1,
   (C10_setTilesetTag_never_changes_tag st0 "other" true).2 (by decide)⟩

/-- Claim C8: an archive older than the georeference-refactoring version
loads with the validity flag forced to `true`; an archive written at the
current version (at or past the refactoring version) round-trips the flag
unchanged. -/
theorem C8_serialization_compatibility (r : Int) (ar : AnchorArchive)
    (inMemoryFlag inMemoryFlag2 : Bool) (cur : Int) (s : AnchorState)
    (hold : ar.cesiumVersion < r) (hcur : r ≤ cur) :
    deserializeValidFlag r ar inMemoryFlag = true ∧
    deserializeValidFlag r (serializeAnchor cur s) inMemoryFlag2
      = s.worldToECEFIsValid := by
  constructor
  · simp [deserializeValidFlag, hold]
  · simp [deserializeValidFlag, serializeAnchor]
    intro hlt
    omega

/-- Witness for C8: version 0 archive (before refactoring version 1) loads
as valid; a version-5 save of the invalid fresh state round-trips. -/
theorem C8_serialization_compatibility_witness :
    deserializeValidFlag 1 ⟨0, none⟩ false = true ∧
    deserializeValidFlag 1 (serializeAnchor 5 st0) true
      = st0.worldToECEFIsValid :=
  C8_serialization_compatibility 1 ⟨0, none⟩ false true 5 st0
    (by decide) (by decide)

/-- Claim C9 is a code bug: with an unresolvable georeference,
`_applyCartographicProperties` and `_updateCartographicProperties` log the
missing-georeference warning and then dereference the null georeference
pointer anyway, and `_updateActorTransformFromGlobeTransform` dereferences
the null result of `ResolveGeoreference` with no check at all — none of
them returns a safe default (`none` marks the null dereference). -/
theorem C9_null_georeference_dereference :
    applyCartographicProperties envNoGeoref st0 = none ∧
    updateCartographicProperties envNoGeoref stValid = none ∧
    updateActorTransformFromGlobeTransform envNoGeoref stValid = none := by
  refine ⟨?_, ?_, ?_⟩ <;> rfl

/-- Claim C1 as stated is false: on an anchor whose globe transform is not
yet valid (with a georeference resolved), `MoveToLongitudeLatitudeHeight`
logs an error and returns without making the anchor Valid. -/
theorem C1_counterexample :
    (MoveToLongitudeLatitudeHeight mEnv st0 ⟨45, 45, 1000⟩).map
      (fun t => t.worldToECEFIsValid) = some false := by
  rfl

/-- Claim C1 (amended): with a resolved georeference and a valid owner and
root component, `MoveToECEF` from any validity state makes the anchor
Valid, sets the globe transform translation column to the given ECEF
point, refreshes both mirror property sets, and pushes the recomputed
actor transform (tileset transform times ECEF-to-Unreal times globe
transform) to the scene node; `MoveToLongitudeLatitudeHeight`, however,
delegates to `MoveToECEF` with the converted point only when the anchor is
already Valid, and on a not-yet-valid anchor it logs an error and changes
nothing else. -/
theorem C1_explicit_move_amended (env : Env) (s : AnchorState) (p llh : Vec3)
    (g : Georef) (hg : env.georef = some g) (ho : env.hasOwner = true)
    (hr : env.hasOwnerRoot = true) :
    (∃ s', MoveToECEF env s p = some s' ∧
      s'.worldToECEFIsValid = true ∧
      s'.worldToECEF.c3 = ⟨p.x, p.y, p.z, 1⟩ ∧
      s'.ECEF_X = p.x ∧ s'.ECEF_Y = p.y ∧ s'.ECEF_Z = p.z ∧
      Vec3.mk s'.Longitude s'.Latitude s'.Height = g.ecefToLlh p ∧
      s'.actorTransform
        = Mat4.mul (env.tilesetTransform.getD Mat4.idMat)
            (Mat4.mul g.ecefToAbsoluteUnreal s'.worldToECEF)) ∧
    (s.worldToECEFIsValid = true →
      MoveToLongitudeLatitudeHeight env s llh
        = MoveToECEF env s (g.llhToEcef llh)) ∧
    (s.worldToECEFIsValid = false →
      MoveToLongitudeLatitudeHeight env s llh
        = some { s with log := LogMsg.cannotMoveError :: s.log }) := by
  cases hv : s.worldToECEFIsValid <;>
    simp [MoveToECEF, MoveToLongitudeLatitudeHeight,
      applyCartesianProperties, setGlobeTransform,
      updateActorTransformFromGlobeTransform,
      updateGlobeTransformFromActorTransform,
      updateCartographicProperties, updateCartesianProperties,
      hg, ho, hr, hv]

/-- Witness for the amended C1 at a concrete fully-functional environment,
starting from the not-yet-valid fresh state. -/
theorem C1_explicit_move_amended_witness :
    (∃ s', MoveToECEF mEnv st0 ⟨1, 2, 3⟩ = some s' ∧
      s'.worldToECEFIsValid = true ∧
      s'.worldToECEF.c3 = ⟨1, 2, 3, 1⟩ ∧
      s'.ECEF_X = 1 ∧ s'.ECEF_Y = 2 ∧ s'.ECEF_Z = 3 ∧
      Vec3.mk s'.Longitude s'.Latitude s'.Height
        = g0.ecefToLlh ⟨1, 2, 3⟩ ∧
      s'.actorTransform
        = Mat4.mul (mEnv.tilesetTransform.getD Mat4.idMat)
            (Mat4.mul g0.ecefToAbsoluteUnreal s'.worldToECEF)) ∧
    (st0.worldToECEFIsValid = true →
      MoveToLongitudeLatitudeHeight mEnv st0 ⟨4, 5, 6⟩
        = MoveToECEF mEnv st0 (g0.llhToEcef ⟨4, 5, 6⟩)) ∧
    (st0.worldToECEFIsValid = false →
      MoveToLongitudeLatitudeHeight mEnv st0 ⟨4, 5, 6⟩
        = some { st0 with log := LogMsg.cannotMoveError :: st0.log }) := by
  have h := C1_explicit_move_amended mEnv st0 ⟨1, 2, 3⟩ ⟨4, 5, 6⟩ g0
    rfl rfl rfl
  exact h

/-- Claim C2 as stated is false: the only transform-change handler the
component registers (`_onGlobeTransformChanged`, subscribed by
`_registerTileset` to the tileset root, not to the anchor owner) is a
no-op on a not-yet-valid anchor — it neither transitions the anchor to
Valid nor recomputes the globe transform. -/
theorem C2_counterexample :
    onGlobeTransformChanged mEnv st0 = some st0 ∧
    st0.worldToECEFIsValid = false :=
  ⟨rfl, rfl⟩

/-- Claim C2 (amended): the transform-change handler the component
registers observes the tileset root, and it never derives the globe
transform from a local transform: while Valid it recomputes and pushes the
actor transform from the existing globe transform (leaving the globe
transform and validity flag unchanged), while not valid it does nothing;
moreover the derivation `_updateGlobeTransformFromActorTransform` does not
read the actor transform at all, so its resulting globe transform is
independent of it. -/
theorem C2_transform_event_amended (env : Env) (s : AnchorState)
    (g : Georef) (hg : env.georef = some g) (ho : env.hasOwner = true)
    (hr : env.hasOwnerRoot = true) :
    (s.worldToECEFIsValid = true →
      onGlobeTransformChanged env s
        = some { s with actorTransform := pushedActorTransform env g s }) ∧
    (s.worldToECEFIsValid = false →
      onGlobeTransformChanged env s = some s) ∧
    (∀ t : Mat4,
      (updateGlobeTransformFromActorTransform env
        { s with actorTransform := t }).worldToECEF
        = (updateGlobeTransformFromActorTransform env s).worldToECEF) := by
  refine ⟨?_, ?_, ?_⟩
  · intro hv
    simp [onGlobeTransformChanged, updateActorTransformFromGlobeTransform,
      pushedActorTransform, hg, ho, hr, hv]
  · intro hv
    simp [onGlobeTransformChanged, hv]
  · intro t
    cases hv : s.worldToECEFIsValid <;>
      simp [updateGlobeTransformFromActorTransform,
        updateCartesianProperties, hg, ho, hv]

/-- Witness for the amended C2: the handler pushes the actor transform on a
Valid anchor and does nothing on an invalid one. -/
theorem C2_transform_event_amended_witness :
    onGlobeTransformChanged mEnv stValid
      = some { stValid with actorTransform := pushedActorTransform mEnv g0 stValid } ∧
    onGlobeTransformChanged mEnv st0 = some st0 :=
  ⟨(C2_transform_event_amended mEnv stValid g0 rfl rfl rfl).1 rfl,
   (C2_transform_event_amended mEnv st0 g0 rfl rfl rfl).2.1 rfl⟩

/-- Claim C3: on a Valid anchor (with a resolved georeference), an origin
rebase through `ApplyWorldOffset` leaves the cached globe transform and
the validity flag untouched, so `GetECEF` returns exactly the same globe
position afterwards. -/
theorem C3_rebase_preserves_globe_position (env : Env) (s : AnchorState)
    (g : Georef) (d : Vec3) (b : Bool)
    (hg : env.georef = some g) (hv : s.worldToECEFIsValid = true) :
    ∃ s', ApplyWorldOffset env s d b = some s' ∧
      s'.worldToECEF = s.worldToECEF ∧
      s'.worldToECEFIsValid = true ∧
      GetECEF s' = GetECEF s := by
  cases hw : env.hasWorld <;> cases ho : env.hasOwner <;>
    cases hr : env.hasOwnerRoot <;>
    simp [ApplyWorldOffset, updateActorTransformFromGlobeTransform,
      GetECEF, hg, hv, hw, ho, hr]

/-- Witness for C3: a concrete rebase by (100, 0, 0) on the Valid anchor at
globe position (10, 20, 30). -/
theorem C3_rebase_preserves_globe_position_witness :
    ∃ s', ApplyWorldOffset mEnv stValid ⟨100, 0, 0⟩ true = some s' ∧
      s'.worldToECEF = stValid.worldToECEF ∧
      s'.worldToECEFIsValid = true ∧
      GetECEF s' = GetECEF stValid :=
  C3_rebase_preserves_globe_position mEnv stValid g0 ⟨100, 0, 0⟩ true
    rfl rfl

/-- Claim C4 is a code bug: `ApplyWorldOffset` never computes
`oldOrigin - delta` and passes no origin to the recomputation — the
recomputed actor transform is identical for different deltas and for
different world origins, and equals tileset transform times ECEF-to-Unreal
times the globe transform with no origin term (the origin-relative
correction is commented out in the source, although the call-site comment
claims the new origin location is explicitly provided). -/
theorem C4_rebase_ignores_offset_and_origin :
    ApplyWorldOffset mEnv stValid ⟨100, 0, 0⟩ true
      = ApplyWorldOffset mEnv stValid ⟨0, 0, 0⟩ true ∧
    ApplyWorldOffset { mEnv with worldOrigin := ⟨9, 9, 9⟩ } stValid
        ⟨100, 0, 0⟩ true
      = ApplyWorldOffset mEnv stValid ⟨100, 0, 0⟩ true ∧
    (ApplyWorldOffset mEnv stValid ⟨100, 0, 0⟩ true).map
        (fun t => t.actorTransform)
      = some (pushedActorTransform mEnv g0 stValid) :=
  ⟨rfl, rfl, rfl⟩

/-- Claim C5: a georeference-change notification on a Valid anchor (with
georeference, owner and root component present) recomputes and pushes the
actor transform from the existing globe transform, leaving the globe
transform — and hence the globe position — unchanged; on a not-yet-valid
anchor the notification is a no-op that changes no state. -/
theorem C5_georeference_changed (env : Env) (s : AnchorState) (g : Georef)
    (hg : env.georef = some g) (ho : env.hasOwner = true)
    (hr : env.hasOwnerRoot = true) :
    (s.worldToECEFIsValid = true →
      onGeoreferenceChanged env s
        = some { s with actorTransform := pushedActorTransform env g s }) ∧
    (s.worldToECEFIsValid = false →
      onGeoreferenceChanged env s = some s) := by
  constructor <;> intro hv <;>
    simp [onGeoreferenceChanged, updateActorTransformFromGlobeTransform,
      pushedActorTransform, hg, ho, hr, hv]

/-- Witness for C5: the notification on the Valid anchor at (10, 20, 30)
repushes the actor transform, and on the invalid fresh state does
nothing. -/
theorem C5_georeference_changed_witness :
    onGeoreferenceChanged mEnv stValid
      = some { stValid with
          actorTransform := pushedActorTransform mEnv g0 stValid } ∧
    onGeoreferenceChanged mEnv st0 = some st0 :=
  ⟨(C5_georeference_changed mEnv stValid g0 rfl rfl rfl).1 rfl,
   (C5_georeference_changed mEnv st0 g0 rfl rfl rfl).2 rfl⟩

/-- Claim C7 as stated is false: `_updateGlobeTransformFromActorTransform`
changes the globe transform and sets the validity flag but refreshes only
the cartesian mirror (the cartographic update is commented out in the
source), so afterwards the `Longitude`/`Latitude`/`Height` mirror can
disagree with the geodetic conversion of the globe transform translation
while the validity flag is true. -/
theorem C7_counterexample :
    (updateGlobeTransformFromActorTransform mEnv st0).worldToECEFIsValid
      = true ∧
    ¬ (Vec3.mk (updateGlobeTransformFromActorTransform mEnv st0).Longitude
        (updateGlobeTransformFromActorTransform mEnv st0).Latitude
        (updateGlobeTransformFromActorTransform mEnv st0).Height
      = g0.ecefToLlh
          ⟨(updateGlobeTransformFromActorTransform mEnv st0).worldToECEF.c3.x,
           (updateGlobeTransformFromActorTransform mEnv st0).worldToECEF.c3.y,
           (updateGlobeTransformFromActorTransform mEnv st0).worldToECEF.c3.z⟩)
    := by
  refine ⟨rfl, ?_⟩
  norm_num [updateGlobeTransformFromActorTransform,
    updateCartesianProperties, mEnv, g0, st0, Mat4.mul, Mat4.mulVec,
    Mat4.idMat, Vec4.smul, Vec4.add, Vec3.mk.injEq]

/-- Claim C7 (amended): after `_applyCartesianProperties` the cartesian
mirror equals the globe transform translation column and the cartographic
mirror equals its geodetic conversion; after `_applyCartographicProperties`
the cartesian mirror equals the translation column; but
`_updateGlobeTransformFromActorTransform` refreshes only the cartesian
mirror and leaves the cartographic mirror untouched (possibly stale) while
setting the validity flag. -/
theorem C7_mirror_invariant_amended (env : Env) (s : AnchorState)
    (g : Georef) (hg : env.georef = some g) (ho : env.hasOwner = true)
    (hr : env.hasOwnerRoot = true) :
    (∀ s', applyCartesianProperties env s = some s' →
      s'.ECEF_X = s'.worldToECEF.c3.x ∧
      s'.ECEF_Y = s'.worldToECEF.c3.y ∧
      s'.ECEF_Z = s'.worldToECEF.c3.z ∧
      Vec3.mk s'.Longitude s'.Latitude s'.Height
        = g.ecefToLlh ⟨s'.worldToECEF.c3.x, s'.worldToECEF.c3.y,
            s'.worldToECEF.c3.z⟩) ∧
    (∀ s', applyCartographicProperties env s = some s' →
      s'.ECEF_X = s'.worldToECEF.c3.x ∧
      s'.ECEF_Y = s'.worldToECEF.c3.y ∧
      s'.ECEF_Z = s'.worldToECEF.c3.z) ∧
    ((updateGlobeTransformFromActorTransform env s).ECEF_X
        = (updateGlobeTransformFromActorTransform env s).worldToECEF.c3.x ∧
      (updateGlobeTransformFromActorTransform env s).ECEF_Y
        = (updateGlobeTransformFromActorTransform env s).worldToECEF.c3.y ∧
      (updateGlobeTransformFromActorTransform env s).ECEF_Z
        = (updateGlobeTransformFromActorTransform env s).worldToECEF.c3.z ∧
      (updateGlobeTransformFromActorTransform env s).Longitude = s.Longitude ∧
      (updateGlobeTransformFromActorTransform env s).Latitude = s.Latitude ∧
      (updateGlobeTransformFromActorTransform env s).Height = s.Height ∧
      (updateGlobeTransformFromActorTransform env s).worldToECEFIsValid
        = true) := by
  cases hv : s.worldToECEFIsValid <;>
    simp [applyCartesianProperties, applyCartographicProperties,
      setGlobeTransform, updateActorTransformFromGlobeTransform,
      updateGlobeTransformFromActorTransform,
      updateCartographicProperties, updateCartesianProperties,
      hg, ho, hr, hv]

/-- Witness for the amended C7: the concrete result of
`_applyCartesianProperties` on the fresh state has both mirrors consistent
with the globe transform translation. -/
theorem C7_mirror_invariant_amended_witness :
    cartRes.ECEF_X = cartRes.worldToECEF.c3.x ∧
    cartRes.ECEF_Y = cartRes.worldToECEF.c3.y ∧
    cartRes.ECEF_Z = cartRes.worldToECEF.c3.z ∧
    Vec3.mk cartRes.Longitude cartRes.Latitude cartRes.Height
      = g0.ecefToLlh ⟨cartRes.worldToECEF.c3.x, cartRes.worldToECEF.c3.y,
          cartRes.worldToECEF.c3.z⟩ :=
  (C7_mirror_invariant_amended mEnv st0 g0 rfl rfl rfl).1 cartRes rfl
